import Mathlib

/-!
Shallow embedding of the Netlify serverless handler in
`netlify/functions/prompts.js` (the prompt-crud repository), together with a
model of its storage collaborator (the Supabase `prompts` table), and theorems
settling the specification claims about it.
-/

namespace PromptCrud

/-- JSON values, the denotation of the payloads the handler passes to
`JSON.stringify`.  Timestamps are abstracted as natural numbers. -/
inductive Js where
  | null
  | bool (b : Bool)
  | str (s : String)
  | num (n : Nat)
  | arr (xs : List Js)
  | obj (fields : List (String × Js))
  deriving Repr

/-- The fields the handler destructures from the parsed JSON request body,
`const { name, description, prompt } = JSON.parse(event.body || '{}')`,
plus the extra fields a caller may supply (`location_id`, `business_name`,
`knowledgebase`, `inventory`).  `some s` models a string field present with
value `s`; `none` models an absent field. -/
structure ReqBody where
  name : Option String := none
  description : Option String := none
  prompt : Option String := none
  location_id : Option String := none
  business_name : Option String := none
  knowledgebase : Option String := none
  inventory : Option String := none
  deriving Repr, DecidableEq

/-- JavaScript truthiness of an optional string: absent/null and the empty
string are falsy, every other string is truthy. -/
def truthy : Option String → Bool
  | none => false
  | some s => s != ""

/-- A row of the `prompts` table held by the storage collaborator. -/
structure Row where
  id : String
  created_at : Nat
  name : String
  description : String
  prompt : String
  location_id : Option String
  business_name : Option String
  knowledgebase : Option String
  inventory : Option String
  deriving Repr, DecidableEq

/-- An error value returned by a storage call (`{ code, message }`). -/
structure DbError where
  code : String
  message : String
  deriving Repr, DecidableEq

/-- Model of the storage collaborator's state: the table rows, the id and
`created_at` value the backend will assign to the next inserted row, and an
optional injected failure, which models an underlying datastore error hitting
every storage call while it is set. -/
structure Store where
  rows : List Row
  nextIdNum : Nat
  nextTime : Nat
  failure : Option DbError
  deriving Repr, DecidableEq

/-- The id string the backend assigns to the `n`-th inserted row. -/
def genId (n : Nat) : String := "id-" ++ toString n

/-- Comparison used by `order('created_at', { ascending: true })`. -/
def byCreatedAt (a b : Row) : Prop := a.created_at ≤ b.created_at

instance : DecidableRel byCreatedAt := fun a b => Nat.decLe a.created_at b.created_at

instance : IsTotal Row byCreatedAt := ⟨fun a b => Nat.le_total a.created_at b.created_at⟩

instance : IsTrans Row byCreatedAt := ⟨fun _ _ _ h1 h2 => Nat.le_trans h1 h2⟩

/-- `supabase.from('prompts').select('*').order('created_at', {ascending: true})`:
all rows, sorted ascending by `created_at`; fails when the injected storage
failure is set. -/
def dbSelectOrdered (s : Store) : Except DbError (List Row) :=
  match s.failure with
  | some e => .error e
  | none => .ok (s.rows.insertionSort byCreatedAt)

/-- `supabase.from('prompts').insert([{ name, description, prompt }]).select().single()`:
the backend assigns `id` and `created_at`; every other column is left null. -/
def dbInsert (s : Store) (n d p : String) : Except DbError (Row × Store) :=
  match s.failure with
  | some e => .error e
  | none =>
    let r : Row :=
      { id := genId s.nextIdNum, created_at := s.nextTime,
        name := n, description := d, prompt := p,
        location_id := none, business_name := none,
        knowledgebase := none, inventory := none }
    .ok (r, { s with rows := s.rows ++ [r],
                     nextIdNum := s.nextIdNum + 1, nextTime := s.nextTime + 1 })

/-- `supabase.from('prompts').update({ name, description, prompt }).eq('id', id).select().single()`:
every row matching `id` gets the three columns replaced, other columns are
untouched; `.single()` yields the row when exactly one matched and the
PostgREST error `PGRST116` otherwise. -/
def dbUpdate (s : Store) (id n d p : String) : Except DbError Row × Store :=
  match s.failure with
  | some e => (.error e, s)
  | none =>
    let rows' := s.rows.map fun r =>
      if r.id = id then { r with name := n, description := d, prompt := p } else r
    match rows'.filter (fun r => r.id = id) with
    | [r] => (.ok r, { s with rows := rows' })
    | _ => (.error { code := "PGRST116",
                     message := "JSON object requested, multiple (or no) rows returned" },
            { s with rows := rows' })

/-- `supabase.from('prompts').delete().eq('id', id)`: removes every row
matching `id`; succeeds whether or not any row matched. -/
def dbDelete (s : Store) (id : String) : Except DbError Store :=
  match s.failure with
  | some e => .error e
  | none => .ok { s with rows := s.rows.filter fun r => r.id ≠ id }

/-- The process environment seen by the handler: the two Supabase connection
credentials, `process.version`, and the outcome of the dynamic
`import('@supabase/supabase-js')` (`some msg` models the import rejecting with
message `msg`). -/
structure Env where
  supabaseUrl : Option String
  supabaseKey : Option String
  nodeVersion : String
  importError : Option String
  deriving Repr, DecidableEq

/-- Denotation of `JSON.parse` applied to a request body text: either the text
is malformed and the parse throws with message `msg`, or it yields an object
whose destructured fields are recorded. -/
inductive ParsedBody where
  | malformed (msg : String)
  | object (o : ReqBody)
  deriving Repr, DecidableEq

/-- The inbound event: HTTP method, raw path, and the body, where `none`
models a null or empty body text (so that `event.body || '{}'` falls back to
`'{}'`, which parses to the empty object). -/
structure Event where
  httpMethod : String
  path : String
  body : Option ParsedBody
  deriving Repr, DecidableEq

/-- A response body: either a literal non-JSON text (the DELETE branch's `''`)
or a value passed through `JSON.stringify`. -/
inductive RespBody where
  | text (s : String)
  | json (v : Js)
  deriving Repr

/-- The handler's return shape `{ statusCode, headers, body }`; `body := none`
models the field being absent (the OPTIONS branch). -/
structure Response where
  statusCode : Nat
  headers : List (String × String)
  body : Option RespBody
  deriving Repr

/-- The constant header object attached to every response. -/
def jsonHeaders : List (String × String) :=
  [("Access-Control-Allow-Origin", "*"),
   ("Access-Control-Allow-Headers", "Content-Type"),
   ("Access-Control-Allow-Methods", "GET,POST,PUT,DELETE,OPTIONS"),
   ("Content-Type", "application/json")]

/-- Everything after the first occurrence of the pattern inside the string,
or `none` when the pattern does not occur; `stripAt pat s` tries to strip
`pat` at the front of `s`. -/
def stripAt : List Char → List Char → Option (List Char)
  | [], s => some s
  | _ :: _, [] => none
  | p :: ps, c :: cs => if p = c then stripAt ps cs else none

/-- First-occurrence search used to model the source's regex match. -/
def afterFirst (pat : List Char) : List Char → Option (List Char)
  | [] => stripAt pat []
  | c :: cs =>
    match stripAt pat (c :: cs) with
    | some r => some r
    | none => afterFirst pat cs

/-- Normalization of `event.path` into the subpath, as the source does with
`(event.path || '/').match(/\.netlify\/functions\/prompts(.*)$/)`: the
capture is everything after the first occurrence of
`.netlify/functions/prompts`, defaulting to `/` when there is no occurrence
or the capture is empty, and a leading slash is forced. -/
def extractSubpath (path : String) : String :=
  let p := if path = "" then "/" else path
  let sub : List Char :=
    match afterFirst ".netlify/functions/prompts".toList p.toList with
    | none => ['/']
    | some r => if r = [] then ['/'] else r
  String.mk (if sub.head? = some '/' then sub else '/' :: sub)

/-- Split of a character list at every `'/'`, the char-level counterpart of
`subpath.split('/')`. -/
def splitOnSlash : List Char → List (List Char)
  | [] => [[]]
  | c :: cs =>
    if c = '/' then [] :: splitOnSlash cs
    else
      match splitOnSlash cs with
      | [] => [[c]]
      | h :: t => (c :: h) :: t

/-- The test of `/^\/prompts\/([^\/]+)$/` on the subpath combined with the id
extraction `subpath.split('/')[2]`: the regex matches exactly the subpaths of
shape `/prompts/<id>` with `<id>` nonempty and slash-free, and the split's
third component is that `<id>`. -/
def idPathMatch (subpath : String) : Option String :=
  match splitOnSlash subpath.toList with
  | [[], seg, id] =>
    if seg = "prompts".toList then
      if id = [] then none else some (String.mk id)
    else none
  | _ => none

/-- `JSON.parse(event.body || '{}')`: a null/empty body text parses to the
empty object, a malformed body throws, otherwise the object is returned. -/
def parseBody : Option ParsedBody → Except String ReqBody
  | none => .ok {}
  | some (.malformed msg) => .error msg
  | some (.object o) => .ok o

/-- The 400 response shared by the POST and PUT validation checks. -/
def validationFailed : Response :=
  { statusCode := 400, headers := jsonHeaders,
    body := some (.json (.obj
      [("error", .str "Name, description, and prompt are required")])) }

/-- Serialization of a stored row as the backend returns it and
`JSON.stringify` renders it: all nine columns, null for absent ones. -/
def rowJs (r : Row) : Js :=
  .obj [("id", .str r.id), ("created_at", .num r.created_at),
        ("name", .str r.name), ("description", .str r.description),
        ("prompt", .str r.prompt),
        ("location_id", (r.location_id.map Js.str).getD .null),
        ("business_name", (r.business_name.map Js.str).getD .null),
        ("knowledgebase", (r.knowledgebase.map Js.str).getD .null),
        ("inventory", (r.inventory.map Js.str).getD .null)]

/-- The body of the `try` block: route by method and subpath, returning
`.error msg` when the source would throw an error with message `msg` (to be
converted by the catch clause), together with the storage state at that
point. -/
def route (env : Env) (ev : Event) (subpath : String) (s : Store) :
    Except String Response × Store :=
  if ev.httpMethod = "GET" ∧ subpath = "/health" then
    (.ok { statusCode := 200, headers := jsonHeaders,
           body := some (.json (.obj
             [("ok", .bool true),
              ("env", .obj
                [("SUPABASE_URL_SET", .bool (truthy env.supabaseUrl)),
                 ("SUPABASE_ANON_KEY_SET", .bool (truthy env.supabaseKey)),
                 ("node", .str env.nodeVersion)])])) }, s)
  else if ev.httpMethod = "GET" ∧ (subpath = "/" ∨ subpath = "/prompts") then
    match dbSelectOrdered s with
    | .error e => (.error e.message, s)
    | .ok rows =>
      (.ok { statusCode := 200, headers := jsonHeaders,
             body := some (.json (.arr (rows.map rowJs))) }, s)
  else if ev.httpMethod = "POST" ∧ subpath = "/prompts" then
    match parseBody ev.body with
    | .error msg => (.error msg, s)
    | .ok o =>
      if !truthy o.name || !truthy o.description || !truthy o.prompt then
        (.ok validationFailed, s)
      else
        match dbInsert s (o.name.getD "") (o.description.getD "") (o.prompt.getD "") with
        | .error e => (.error e.message, s)
        | .ok (r, s') =>
          (.ok { statusCode := 201, headers := jsonHeaders,
                 body := some (.json (rowJs r)) }, s')
  else
    match ev.httpMethod, idPathMatch subpath with
    | "PUT", some id =>
      (match parseBody ev.body with
       | .error msg => (.error msg, s)
       | .ok o =>
         if !truthy o.name || !truthy o.description || !truthy o.prompt then
           (.ok validationFailed, s)
         else
           match dbUpdate s id (o.name.getD "") (o.description.getD "") (o.prompt.getD "") with
           | (.error e, s') =>
             if e.code = "PGRST116" then
               (.ok { statusCode := 404, headers := jsonHeaders,
                      body := some (.json (.obj [("error", .str "Prompt not found")])) }, s')
             else (.error e.message, s')
           | (.ok r, s') =>
             (.ok { statusCode := 200, headers := jsonHeaders,
                    body := some (.json (rowJs r)) }, s'))
    | "DELETE", some id =>
      (match dbDelete s id with
       | .error e => (.error e.message, s)
       | .ok s' =>
         (.ok { statusCode := 204, headers := jsonHeaders,
                body := some (.text "") }, s'))
    | _, _ =>
      (.ok { statusCode := 404, headers := jsonHeaders,
             body := some (.json (.obj
               [("error", .str "Not found"),
                ("method", .str ev.httpMethod),
                ("path", .str subpath)])) }, s)

/-- The catch clause: an error thrown inside the `try` block becomes a 500
response carrying the error message as a details string. -/
def serverError (msg : String) : Response :=
  { statusCode := 500, headers := jsonHeaders,
    body := some (.json (.obj
      [("error", .str "Server error"), ("details", .str msg)])) }

/-- `exports.handler`: CORS preflight, credential check, dynamic import,
path normalization, then the routed `try`/`catch` body.  Returns the response
together with the storage state after the request. -/
def handler (env : Env) (ev : Event) (s : Store) : Response × Store :=
  if ev.httpMethod = "OPTIONS" then
    ({ statusCode := 204, headers := jsonHeaders, body := none }, s)
  else if !truthy env.supabaseUrl || !truthy env.supabaseKey then
    ({ statusCode := 500, headers := jsonHeaders,
       body := some (.json (.obj
         [("error", .str "Missing SUPABASE_URL or SUPABASE_ANON_KEY environment variables")])) }, s)
  else
    match env.importError with
    | some msg =>
      ({ statusCode := 500, headers := jsonHeaders,
         body := some (.json (.obj
           [("error", .str "Initialization error"), ("details", .str msg)])) }, s)
    | none =>
      match route env ev (extractSubpath ev.path) s with
      | (.ok resp, s') => (resp, s')
      | (.error msg, s') => (serverError msg, s')

/-- The environment is operational: both connection credentials are truthy
and the dynamic import of the storage client succeeded. -/
def envReady (env : Env) : Prop :=
  truthy env.supabaseUrl = true ∧ truthy env.supabaseKey = true ∧ env.importError = none

instance (env : Env) : Decidable (envReady env) := by
  unfold envReady
  infer_instance

/-- A configured environment used for concrete evaluations. -/
def envEx : Env :=
  { supabaseUrl := some "https://example.supabase.co", supabaseKey := some "anon-key",
    nodeVersion := "v18.17.0", importError := none }

/-- The empty storage state. -/
def emptyStore : Store := { rows := [], nextIdNum := 0, nextTime := 0, failure := none }

/-- An environment missing the SUPABASE_URL credential. -/
def envNoUrl : Env :=
  { supabaseUrl := none, supabaseKey := some "anon-key",
    nodeVersion := "v18.17.0", importError := none }

/-- The invocation path whose subpath is `/health`. -/
def healthPath : String := "/.netlify/functions/prompts/health"

/-- A stored row with every optional column populated. -/
def rowEx : Row :=
  { id := "id-7", created_at := 3, name := "old-name", description := "old-desc",
    prompt := "old-prompt", location_id := some "loc-old", business_name := some "Acme",
    knowledgebase := some "kb-old", inventory := some "inv-old" }

/-- A one-row storage state. -/
def storeEx : Store := { rows := [rowEx], nextIdNum := 8, nextTime := 4, failure := none }

/-- A storage state whose calls all fail with a non-PGRST116 error. -/
def failStore : Store :=
  { rows := [], nextIdNum := 0, nextTime := 0,
    failure := some { code := "XX000", message := "connection refused" } }

/-- The invocation path whose subpath is `/prompts`. -/
def postPath : String := "/.netlify/functions/prompts/prompts"

/-- An invocation path whose subpath is `/prompts/id-7`. -/
def itemPath : String := "/.netlify/functions/prompts/prompts/id-7"

/-- An invocation path whose subpath names an id matching no stored row. -/
def missPath : String := "/.netlify/functions/prompts/prompts/zzz"

/-- A request body with `name` and `prompt` present and non-empty but no
`description`. -/
def bodyNoDescription : ReqBody :=
  { name := some "Escalation", prompt := some "Ping the agent" }

/-- A request body with all candidate fields populated. -/
def fullBody : ReqBody :=
  { name := some "Escalation", description := some "Support",
    prompt := some "Ping the agent", location_id := some "loc-9",
    business_name := some "NewBiz", knowledgebase := some "kb-new",
    inventory := some "inv-new" }

/-- A valid request body that omits `location_id` (and every other optional
field). -/
def bodyNoLocation : ReqBody :=
  { name := some "Escalation", description := some "Support",
    prompt := some "Ping the agent" }

/-- The row a Create against the empty store produces for the bodies above. -/
def rowCreated : Row :=
  { id := "id-0", created_at := 0, name := "Escalation", description := "Support",
    prompt := "Ping the agent", location_id := none, business_name := none,
    knowledgebase := none, inventory := none }

/-- Construction of an inbound event from its components. -/
def mkEvent (m p : String) (b : Option ParsedBody) : Event :=
  { httpMethod := m, path := p, body := b }

/-- The method/subpath combinations the router dispatches to an operation;
everything else falls through to the catch-all response. -/
def matchedRoute (m subpath : String) : Prop :=
  (m = "GET" ∧ subpath = "/health") ∨
  (m = "GET" ∧ (subpath = "/" ∨ subpath = "/prompts")) ∨
  (m = "POST" ∧ subpath = "/prompts") ∨
  ((m = "PUT" ∨ m = "DELETE") ∧ (idPathMatch subpath).isSome)

instance (m subpath : String) : Decidable (matchedRoute m subpath) := by
  unfold matchedRoute
  infer_instance

/-- The 500 response the handler answers with when a connection credential is
absent, before any routing. -/
def configError : Response :=
  { statusCode := 500, headers := jsonHeaders,
    body := some (.json (.obj
      [("error",
        .str "Missing SUPABASE_URL or SUPABASE_ANON_KEY environment variables")])) }

/-- The row Create adds to the table for given field values and counters. -/
def insertedRow (idNum time : Nat) (n d p : String) : Row :=
  { id := genId idNum, created_at := time, name := n, description := d,
    prompt := p, location_id := none, business_name := none,
    knowledgebase := none, inventory := none }

/-- The result of Update on a row: exactly `name`, `description` and
`prompt` are replaced, every other column keeps its prior value. -/
def updatedRow (r : Row) (n d p : String) : Row :=
  { r with name := n, description := d, prompt := p }

/-- The storage state after a successful Create with the given field
values. -/
def insertStore (s : Store) (n d p : String) : Store :=
  { s with
    rows := s.rows ++ [insertedRow s.nextIdNum s.nextTime n d p],
    nextIdNum := s.nextIdNum + 1,
    nextTime := s.nextTime + 1 }

theorem handler_ready (env : Env) (ev : Event) (s : Store) (henv : envReady env)
    (hm : ev.httpMethod ≠ "OPTIONS") :
    handler env ev s =
      match route env ev (extractSubpath ev.path) s with
      | (.ok resp, s') => (resp, s')
      | (.error msg, s') => (serverError msg, s') := by
  obtain ⟨hu, hk, hie⟩ := henv
  unfold handler
  rw [if_neg hm, hu, hk, hie]
  simp

theorem route_post (env : Env) (ev : Event) (s : Store) (hm : ev.httpMethod = "POST") :
    route env ev "/prompts" s =
      match parseBody ev.body with
      | .error msg => (.error msg, s)
      | .ok o =>
        if !truthy o.name || !truthy o.description || !truthy o.prompt then
          (.ok validationFailed, s)
        else
          match dbInsert s (o.name.getD "") (o.description.getD "") (o.prompt.getD "") with
          | .error e => (.error e.message, s)
          | .ok (r, s') =>
            (.ok { statusCode := 201, headers := jsonHeaders,
                   body := some (.json (rowJs r)) }, s') := by
  unfold route
  rw [hm]
  simp

theorem route_put (env : Env) (ev : Event) (s : Store) (subpath : String) (id : String)
    (hm : ev.httpMethod = "PUT") (hid : idPathMatch subpath = some id) :
    route env ev subpath s =
      match parseBody ev.body with
      | .error msg => (.error msg, s)
      | .ok o =>
        if !truthy o.name || !truthy o.description || !truthy o.prompt then
          (.ok validationFailed, s)
        else
          match dbUpdate s id (o.name.getD "") (o.description.getD "") (o.prompt.getD "") with
          | (.error e, s') =>
            if e.code = "PGRST116" then
              (.ok { statusCode := 404, headers := jsonHeaders,
                     body := some (.json (.obj [("error", .str "Prompt not found")])) }, s')
            else (.error e.message, s')
          | (.ok r, s') =>
            (.ok { statusCode := 200, headers := jsonHeaders,
                   body := some (.json (rowJs r)) }, s') := by
  unfold route
  rw [hm, hid]
  simp

theorem route_delete (env : Env) (ev : Event) (s : Store) (subpath : String) (id : String)
    (hm : ev.httpMethod = "DELETE") (hid : idPathMatch subpath = some id) :
    route env ev subpath s =
      match dbDelete s id with
      | .error e => (.error e.message, s)
      | .ok s' =>
        (.ok { statusCode := 204, headers := jsonHeaders,
               body := some (.text "") }, s') := by
  unfold route
  rw [hm, hid]
  simp

theorem route_list (env : Env) (ev : Event) (s : Store)
    (hm : ev.httpMethod = "GET") (subpath : String)
    (hp : subpath = "/" ∨ subpath = "/prompts") :
    route env ev subpath s =
      match dbSelectOrdered s with
      | .error e => (.error e.message, s)
      | .ok rows =>
        (.ok { statusCode := 200, headers := jsonHeaders,
               body := some (.json (.arr (rows.map rowJs))) }, s) := by
  unfold route
  rw [hm]
  have hne : subpath ≠ "/health" := by rcases hp with h | h <;> simp [h]
  rw [if_neg (by simp [hne]), if_pos ⟨rfl, hp⟩]

theorem route_health (env : Env) (ev : Event) (s : Store) (hm : ev.httpMethod = "GET") :
    route env ev "/health" s =
      (.ok { statusCode := 200, headers := jsonHeaders,
             body := some (.json (.obj
               [("ok", .bool true),
                ("env", .obj
                  [("SUPABASE_URL_SET", .bool (truthy env.supabaseUrl)),
                   ("SUPABASE_ANON_KEY_SET", .bool (truthy env.supabaseKey)),
                   ("node", .str env.nodeVersion)])])) }, s) := by
  unfold route
  rw [hm]
  simp

theorem route_unmatched (env : Env) (ev : Event) (s : Store) (subpath : String)
    (h : ¬ matchedRoute ev.httpMethod subpath) :
    route env ev subpath s =
      (.ok { statusCode := 404, headers := jsonHeaders,
             body := some (.json (.obj
               [("error", .str "Not found"),
                ("method", .str ev.httpMethod),
                ("path", .str subpath)])) }, s) := by
  unfold matchedRoute at h
  have h1 : ¬(ev.httpMethod = "GET" ∧ subpath = "/health") := fun hh => h (Or.inl hh)
  have h2 : ¬(ev.httpMethod = "GET" ∧ (subpath = "/" ∨ subpath = "/prompts")) :=
    fun hh => h (Or.inr (Or.inl hh))
  have h3 : ¬(ev.httpMethod = "POST" ∧ subpath = "/prompts") :=
    fun hh => h (Or.inr (Or.inr (Or.inl hh)))
  have h4 : ¬((ev.httpMethod = "PUT" ∨ ev.httpMethod = "DELETE") ∧
      (idPathMatch subpath).isSome) :=
    fun hh => h (Or.inr (Or.inr (Or.inr hh)))
  unfold route
  rw [if_neg h1, if_neg h2, if_neg h3]
  split
  · rename_i hm hid
    exact absurd ⟨Or.inl hm, by rw [hid]; rfl⟩ h4
  · rename_i hm hid
    exact absurd ⟨Or.inr hm, by rw [hid]; rfl⟩ h4
  · rfl

theorem map_update_of_no_match (rows : List Row) (id n d p : String)
    (h : ∀ r ∈ rows, r.id ≠ id) :
    (rows.map fun r =>
      if r.id = id then { r with name := n, description := d, prompt := p } else r) = rows := by
  conv_rhs => rw [← List.map_id rows]
  refine List.map_congr_left fun r hr => ?_
  rw [if_neg (h r hr)]
  rfl

theorem filter_id_of_no_match (rows : List Row) (id : String)
    (h : ∀ r ∈ rows, r.id ≠ id) :
    rows.filter (fun r => r.id = id) = [] := by
  refine List.filter_eq_nil_iff.mpr fun r hr => ?_
  simpa using h r hr

theorem filter_id_map_update (rows : List Row) (id n d p : String) :
    ((rows.map fun r =>
        if r.id = id then { r with name := n, description := d, prompt := p } else r).filter
      (fun r => r.id = id)) =
    (rows.filter fun r => r.id = id).map
      (fun r => { r with name := n, description := d, prompt := p }) := by
  induction rows with
  | nil => rfl
  | cons a l ih =>
    by_cases h : a.id = id <;>
      simp [List.filter_cons, h, ih]

theorem dbUpdate_nomatch (s : Store) (id n d p : String) (hf : s.failure = none)
    (h : ∀ r ∈ s.rows, r.id ≠ id) :
    dbUpdate s id n d p =
      (.error { code := "PGRST116",
                message := "JSON object requested, multiple (or no) rows returned" }, s) := by
  obtain ⟨rows, ni, nt, f⟩ := s
  simp only at hf h
  subst hf
  unfold dbUpdate
  simp only [map_update_of_no_match rows id n d p h, filter_id_of_no_match rows id h]

theorem dbUpdate_single (s : Store) (id n d p : String) (r0 : Row) (hf : s.failure = none)
    (hr : s.rows.filter (fun r => r.id = id) = [r0]) :
    dbUpdate s id n d p =
      (.ok { r0 with name := n, description := d, prompt := p },
       { s with rows := s.rows.map fun r =>
           if r.id = id then { r with name := n, description := d, prompt := p } else r }) := by
  obtain ⟨rows, ni, nt, f⟩ := s
  simp only at hf hr
  subst hf
  unfold dbUpdate
  simp only [filter_id_map_update, hr]
  rfl


/-- Claim C1 as stated is refuted: a POST whose body carries `name` and
`prompt` both present and non-empty (but no `description`) is rejected with
400, so 400 does not hold "if and only if `name` or `prompt` is absent or
empty". -/
theorem claim_C1_counterexample :
    truthy bodyNoDescription.name = true ∧ truthy bodyNoDescription.prompt = true ∧
    (handler envEx (mkEvent "POST" postPath (some (.object bodyNoDescription)))
      emptyStore).1.statusCode = 400 := by
  decide

/-- Claim C1 (amended): for Create and Update requests with a parseable
object body, the handler returns 400 exactly when `name`, `description` or
`prompt` is absent or empty; a 400 leaves the storage state untouched (the
validation check precedes any storage call), and when all three fields are
present and non-empty and storage is healthy, Create reaches the storage
collaborator and answers 201 with the inserted record. -/
theorem claim_C1_amended (env : Env) (henv : envReady env) (p q : String) (o : ReqBody)
    (s : Store) (id : String) (hpost : extractSubpath p = "/prompts")
    (hput : idPathMatch (extractSubpath q) = some id) :
    (((handler env (mkEvent "POST" p (some (.object o))) s).1.statusCode = 400 ↔
      ¬(truthy o.name = true ∧ truthy o.description = true ∧ truthy o.prompt = true)) ∧
     ((handler env (mkEvent "POST" p (some (.object o))) s).1.statusCode = 400 →
      (handler env (mkEvent "POST" p (some (.object o))) s).2 = s) ∧
     (truthy o.name = true → truthy o.description = true → truthy o.prompt = true →
      s.failure = none →
      (handler env (mkEvent "POST" p (some (.object o))) s).1.statusCode = 201 ∧
      (handler env (mkEvent "POST" p (some (.object o))) s).2 =
        insertStore s (o.name.getD "") (o.description.getD "") (o.prompt.getD ""))) ∧
    (((handler env (mkEvent "PUT" q (some (.object o))) s).1.statusCode = 400 ↔
      ¬(truthy o.name = true ∧ truthy o.description = true ∧ truthy o.prompt = true)) ∧
     ((handler env (mkEvent "PUT" q (some (.object o))) s).1.statusCode = 400 →
      (handler env (mkEvent "PUT" q (some (.object o))) s).2 = s)) := by
  have hP := handler_ready env (mkEvent "POST" p (some (.object o))) s henv (by simp [mkEvent])
  have hU := handler_ready env (mkEvent "PUT" q (some (.object o))) s henv (by simp [mkEvent])
  simp only [mkEvent] at hP hU
  rw [hpost, route_post env _ s rfl] at hP
  rw [route_put env _ s _ id rfl hput] at hU
  simp only [parseBody] at hP hU
  simp only [mkEvent]
  have hval : (!truthy o.name || !truthy o.description || !truthy o.prompt) = true ↔
      ¬(truthy o.name = true ∧ truthy o.description = true ∧ truthy o.prompt = true) := by
    cases truthy o.name <;> cases truthy o.description <;> cases truthy o.prompt <;> simp
  by_cases hv : (!truthy o.name || !truthy o.description || !truthy o.prompt) = true
  · rw [if_pos hv] at hP hU
    simp only at hP hU
    refine ⟨⟨?_, ?_, ?_⟩, ?_, ?_⟩
    · rw [hP]
      simpa [validationFailed] using hval.mp hv
    · intro _
      rw [hP]
    · intro hn hd hpr _
      exact absurd ⟨hn, hd, hpr⟩ (hval.mp hv)
    · rw [hU]
      simpa [validationFailed] using hval.mp hv
    · intro _
      rw [hU]
  · rw [if_neg hv] at hP hU
    have hthree : truthy o.name = true ∧ truthy o.description = true ∧ truthy o.prompt = true := by
      by_contra hc
      exact hv (hval.mpr hc)
    have hPOSTne :
        (handler env (mkEvent "POST" p (some (.object o))) s).1.statusCode ≠ 400 := by
      simp only [mkEvent]
      rw [hP]
      cases hfv : s.failure with
      | none => simp [dbInsert, hfv]
      | some e => simp [dbInsert, hfv, serverError]
    have hPUTne :
        (handler env (mkEvent "PUT" q (some (.object o))) s).1.statusCode ≠ 400 := by
      simp only [mkEvent]
      rw [hU]
      rcases hdu : dbUpdate s id (o.name.getD "") (o.description.getD "") (o.prompt.getD "")
        with ⟨res, s1⟩
      cases res with
      | error e =>
        by_cases hc : e.code = "PGRST116" <;> simp [hc, serverError]
      | ok r => simp
    refine ⟨⟨?_, ?_, ?_⟩, ?_, ?_⟩
    · exact ⟨fun h400 => absurd h400 hPOSTne, fun hcon => absurd hthree hcon⟩
    · intro h400
      exact absurd h400 hPOSTne
    · intro _ _ _ hfv
      rw [hP]
      simp [dbInsert, hfv, insertStore, insertedRow]
    · exact ⟨fun h400 => absurd h400 hPUTne, fun hcon => absurd hthree hcon⟩
    · intro h400
      exact absurd h400 hPUTne

/-- Witness instantiating claim C1's amended theorem at a concrete valid
Create request, which is accepted with 201. -/
theorem claim_C1_witness :
    (handler envEx (mkEvent "POST" postPath (some (.object fullBody)))
      storeEx).1.statusCode = 201 :=
  ((claim_C1_amended envEx (by decide) postPath itemPath fullBody storeEx "id-7"
    (by decide) (by decide)).1.2.2 (by decide) (by decide) (by decide) (by decide)).1

/-- Claim C2 as stated is refuted: a successful Create that omits
`location_id` stores the record with a null `location_id`, not one equal to
its own generated `id` — the handler performs no follow-up backfill
update. -/
theorem claim_C2_counterexample :
    (handler envEx (mkEvent "POST" postPath (some (.object bodyNoLocation)))
      emptyStore).1.statusCode = 201 ∧
    (handler envEx (mkEvent "POST" postPath (some (.object bodyNoLocation)))
      emptyStore).2.rows = [rowCreated] ∧
    rowCreated.location_id ≠ some rowCreated.id := by
  refine ⟨by decide, ?_, by decide⟩
  have h : (handler envEx (mkEvent "POST" postPath (some (.object bodyNoLocation)))
      emptyStore).2 = insertStore emptyStore "Escalation" "Support" "Ping the agent" := by
    decide
  rw [h]
  decide

/-- Claim C2 (amended): a successful Create in which the caller omitted
`location_id` stores and returns the record with `location_id` null, and the
storage state after the request is exactly the single-insert result — the
handler issues no follow-up backfill update. -/
theorem claim_C2_amended (env : Env) (henv : envReady env) (p : String) (o : ReqBody)
    (s : Store) (hpost : extractSubpath p = "/prompts")
    (hn : truthy o.name = true) (hd : truthy o.description = true)
    (hpr : truthy o.prompt = true) (hloc : o.location_id = none)
    (hf : s.failure = none) :
    (handler env (mkEvent "POST" p (some (.object o))) s).1.statusCode = 201 ∧
    (handler env (mkEvent "POST" p (some (.object o))) s).1.body =
      some (.json (rowJs
        (insertedRow s.nextIdNum s.nextTime (o.name.getD "") (o.description.getD "")
          (o.prompt.getD "")))) ∧
    (insertedRow s.nextIdNum s.nextTime (o.name.getD "") (o.description.getD "")
      (o.prompt.getD "")).location_id = none ∧
    (handler env (mkEvent "POST" p (some (.object o))) s).2 =
      insertStore s (o.name.getD "") (o.description.getD "") (o.prompt.getD "") := by
  have hP := handler_ready env (mkEvent "POST" p (some (.object o))) s henv (by simp [mkEvent])
  simp only [mkEvent] at hP
  rw [hpost, route_post env _ s rfl] at hP
  simp only [parseBody] at hP
  simp only [mkEvent]
  rw [hP]
  simp [hn, hd, hpr, dbInsert, hf, insertStore, insertedRow]

/-- Witness instantiating claim C2's amended theorem at a concrete Create
without `location_id` against the empty store. -/
theorem claim_C2_witness :
    (handler envEx (mkEvent "POST" postPath (some (.object bodyNoLocation)))
      emptyStore).1.statusCode = 201 ∧
    (insertedRow emptyStore.nextIdNum emptyStore.nextTime
      (bodyNoLocation.name.getD "") (bodyNoLocation.description.getD "")
      (bodyNoLocation.prompt.getD "")).location_id = none := by
  have h := claim_C2_amended envEx (by decide) postPath bodyNoLocation emptyStore
    (by decide) (by decide) (by decide) (by decide) (by decide) (by decide)
  exact ⟨h.1, h.2.2.1⟩

/-- Claim C3 as stated is refuted: a valid Create whose body supplies
`location_id`, `business_name`, `knowledgebase` and `inventory` succeeds, but
the stored record carries none of them — the handler passes only `name`,
`description` and `prompt` to the storage collaborator. -/
theorem claim_C3_counterexample :
    fullBody.business_name = some "NewBiz" ∧
    (handler envEx (mkEvent "POST" postPath (some (.object fullBody)))
      emptyStore).1.statusCode = 201 ∧
    (handler envEx (mkEvent "POST" postPath (some (.object fullBody)))
      emptyStore).2.rows = [rowCreated] ∧
    rowCreated.business_name = none ∧ rowCreated.location_id = none ∧
    rowCreated.knowledgebase = none ∧ rowCreated.inventory = none := by
  refine ⟨by decide, by decide, ?_, by decide, by decide, by decide, by decide⟩
  have h : (handler envEx (mkEvent "POST" postPath (some (.object fullBody)))
      emptyStore).2 = insertStore emptyStore "Escalation" "Support" "Ping the agent" := by
    decide
  rw [h]
  decide

/-- Claim C3 (amended): for valid Create and Update requests, only `name`,
`description` and `prompt` are taken from the body and passed to the storage
collaborator; the optional fields `location_id`, `business_name`,
`knowledgebase` and `inventory` in the body are ignored — a created record
has them null, and Update replaces exactly the three validated fields,
leaving the other columns of the matched record untouched. -/
theorem claim_C3_amended (env : Env) (henv : envReady env) (p q : String) (o : ReqBody)
    (s : Store) (id : String) (r0 : Row) (hpost : extractSubpath p = "/prompts")
    (hput : idPathMatch (extractSubpath q) = some id)
    (hn : truthy o.name = true) (hd : truthy o.description = true)
    (hpr : truthy o.prompt = true) (hf : s.failure = none)
    (hr : s.rows.filter (fun r => r.id = id) = [r0]) :
    ((handler env (mkEvent "POST" p (some (.object o))) s).1.statusCode = 201 ∧
     (handler env (mkEvent "POST" p (some (.object o))) s).2 =
       insertStore s (o.name.getD "") (o.description.getD "") (o.prompt.getD "") ∧
     (insertedRow s.nextIdNum s.nextTime (o.name.getD "") (o.description.getD "")
       (o.prompt.getD "")).location_id = none ∧
     (insertedRow s.nextIdNum s.nextTime (o.name.getD "") (o.description.getD "")
       (o.prompt.getD "")).business_name = none ∧
     (insertedRow s.nextIdNum s.nextTime (o.name.getD "") (o.description.getD "")
       (o.prompt.getD "")).knowledgebase = none ∧
     (insertedRow s.nextIdNum s.nextTime (o.name.getD "") (o.description.getD "")
       (o.prompt.getD "")).inventory = none) ∧
    ((handler env (mkEvent "PUT" q (some (.object o))) s).1.statusCode = 200 ∧
     (handler env (mkEvent "PUT" q (some (.object o))) s).1.body =
       some (.json (rowJs (updatedRow r0 (o.name.getD "") (o.description.getD "")
         (o.prompt.getD "")))) ∧
     (updatedRow r0 (o.name.getD "") (o.description.getD "")
       (o.prompt.getD "")).location_id = r0.location_id ∧
     (updatedRow r0 (o.name.getD "") (o.description.getD "")
       (o.prompt.getD "")).business_name = r0.business_name ∧
     (updatedRow r0 (o.name.getD "") (o.description.getD "")
       (o.prompt.getD "")).knowledgebase = r0.knowledgebase ∧
     (updatedRow r0 (o.name.getD "") (o.description.getD "")
       (o.prompt.getD "")).inventory = r0.inventory ∧
     (updatedRow r0 (o.name.getD "") (o.description.getD "")
       (o.prompt.getD "")).created_at = r0.created_at) := by
  have hvf : (!truthy o.name || !truthy o.description || !truthy o.prompt) = false := by
    simp [hn, hd, hpr]
  constructor
  · have hP := handler_ready env (mkEvent "POST" p (some (.object o))) s henv
      (by simp [mkEvent])
    simp only [mkEvent] at hP
    rw [hpost, route_post env _ s rfl] at hP
    simp only [parseBody, hvf, Bool.false_eq_true, if_false] at hP
    simp only [mkEvent]
    rw [hP]
    simp [dbInsert, hf, insertStore, insertedRow]
  · have hU := handler_ready env (mkEvent "PUT" q (some (.object o))) s henv
      (by simp [mkEvent])
    simp only [mkEvent] at hU
    rw [route_put env _ s _ id rfl hput] at hU
    simp only [parseBody, hvf, Bool.false_eq_true, if_false] at hU
    rw [dbUpdate_single s id _ _ _ r0 hf hr] at hU
    simp only [mkEvent]
    rw [hU]
    simp [updatedRow]

/-- Witness instantiating claim C3's amended theorem: an Update with every
optional field supplied keeps the stored record's prior `business_name`. -/
theorem claim_C3_witness :
    (handler envEx (mkEvent "PUT" itemPath (some (.object fullBody)))
      storeEx).1.statusCode = 200 ∧
    (updatedRow rowEx (fullBody.name.getD "") (fullBody.description.getD "")
      (fullBody.prompt.getD "")).business_name = some "Acme" := by
  have h := claim_C3_amended envEx (by decide) postPath itemPath fullBody storeEx "id-7"
    rowEx (by decide) (by decide) (by decide) (by decide) (by decide) (by decide)
    (by decide)
  exact ⟨h.2.1, by rw [h.2.2.2.2.1]; decide⟩

/-- Claim C4: List fetches every stored record and answers 200 with the JSON
array ordered ascending by `created_at`; an empty collection yields the empty
array (never null), and the collection is left unchanged. -/
theorem claim_C4_list_ordered (env : Env) (henv : envReady env) (p : String)
    (b : Option ParsedBody) (s : Store)
    (hp : extractSubpath p = "/" ∨ extractSubpath p = "/prompts")
    (hf : s.failure = none) :
    (handler env (mkEvent "GET" p b) s).1.statusCode = 200 ∧
    (handler env (mkEvent "GET" p b) s).1.body =
      some (.json (.arr ((s.rows.insertionSort byCreatedAt).map rowJs))) ∧
    List.Sorted byCreatedAt (s.rows.insertionSort byCreatedAt) ∧
    (s.rows.insertionSort byCreatedAt).Perm s.rows ∧
    (s.rows = [] →
      (handler env (mkEvent "GET" p b) s).1.body = some (.json (.arr []))) ∧
    (handler env (mkEvent "GET" p b) s).2 = s := by
  have hG := handler_ready env (mkEvent "GET" p b) s henv (by simp [mkEvent])
  simp only [mkEvent] at hG
  rw [route_list env _ s rfl (extractSubpath p) hp] at hG
  simp only [dbSelectOrdered, hf] at hG
  simp only [mkEvent]
  rw [hG]
  refine ⟨rfl, rfl, List.sorted_insertionSort byCreatedAt s.rows,
    List.perm_insertionSort byCreatedAt s.rows, ?_, rfl⟩
  intro he
  rw [he]
  rfl

/-- Witness instantiating claim C4 on a concrete one-row store and on the
empty store via the hypothesis about empty collections. -/
theorem claim_C4_witness :
    (handler envEx (mkEvent "GET" postPath none) storeEx).1.statusCode = 200 ∧
    (handler envEx (mkEvent "GET" postPath none) emptyStore).1.body =
      some (.json (.arr [])) := by
  have h1 := claim_C4_list_ordered envEx (by decide) postPath none storeEx
    (Or.inr (by decide)) (by decide)
  have h2 := claim_C4_list_ordered envEx (by decide) postPath none emptyStore
    (Or.inr (by decide)) (by decide)
  exact ⟨h1.1, h2.2.2.2.2.1 rfl⟩

/-- Claim C5: Update with a valid body whose id matches no stored record
returns 404 with an error JSON body and leaves the collection unchanged — in
particular no record is created as a side effect. -/
theorem claim_C5_update_notfound (env : Env) (henv : envReady env) (q : String)
    (o : ReqBody) (s : Store) (id : String)
    (hput : idPathMatch (extractSubpath q) = some id)
    (hn : truthy o.name = true) (hd : truthy o.description = true)
    (hpr : truthy o.prompt = true) (hf : s.failure = none)
    (hmiss : ∀ r ∈ s.rows, r.id ≠ id) :
    (handler env (mkEvent "PUT" q (some (.object o))) s).1.statusCode = 404 ∧
    (handler env (mkEvent "PUT" q (some (.object o))) s).1.body =
      some (.json (.obj [("error", .str "Prompt not found")])) ∧
    (handler env (mkEvent "PUT" q (some (.object o))) s).2 = s := by
  have hU := handler_ready env (mkEvent "PUT" q (some (.object o))) s henv
    (by simp [mkEvent])
  simp only [mkEvent] at hU
  rw [route_put env _ s _ id rfl hput] at hU
  have hvf : (!truthy o.name || !truthy o.description || !truthy o.prompt) = false := by
    simp [hn, hd, hpr]
  simp only [parseBody, hvf, Bool.false_eq_true, if_false] at hU
  rw [dbUpdate_nomatch s id _ _ _ hf hmiss] at hU
  simp only [reduceIte] at hU
  simp only [mkEvent]
  rw [hU]
  exact ⟨rfl, rfl, rfl⟩

/-- Witness instantiating claim C5 at a concrete Update against an id absent
from the store. -/
theorem claim_C5_witness :
    (handler envEx (mkEvent "PUT" missPath (some (.object fullBody)))
      storeEx).1.statusCode = 404 ∧
    (handler envEx (mkEvent "PUT" missPath (some (.object fullBody)))
      storeEx).2 = storeEx := by
  have h := claim_C5_update_notfound envEx (by decide) missPath fullBody storeEx "zzz"
    (by decide) (by decide) (by decide) (by decide) (by decide) (by decide)
  exact ⟨h.1, h.2.2⟩

/-- Claim C6: Delete answers 204 with an empty body for every id — matched or
not, never a not-found error — and deleting the same id twice leaves the
collection in the same state as deleting it once. -/
theorem claim_C6_delete_idempotent (env : Env) (henv : envReady env) (q : String)
    (b b2 : Option ParsedBody) (s : Store) (id : String)
    (hput : idPathMatch (extractSubpath q) = some id) (hf : s.failure = none) :
    (handler env (mkEvent "DELETE" q b) s).1.statusCode = 204 ∧
    (handler env (mkEvent "DELETE" q b) s).1.body = some (.text "") ∧
    (handler env (mkEvent "DELETE" q b) s).2 =
      { s with rows := s.rows.filter fun r => r.id ≠ id } ∧
    (handler env (mkEvent "DELETE" q b2)
        ((handler env (mkEvent "DELETE" q b) s).2)).2 =
      (handler env (mkEvent "DELETE" q b) s).2 := by
  obtain ⟨rows, ni, nt, f⟩ := s
  simp only at hf
  subst hf
  have hD := handler_ready env (mkEvent "DELETE" q b) ⟨rows, ni, nt, none⟩ henv
    (by simp [mkEvent])
  simp only [mkEvent] at hD
  rw [route_delete env _ _ _ id rfl hput] at hD
  simp only [dbDelete] at hD
  have hD2 := handler_ready env (mkEvent "DELETE" q b2)
    ⟨rows.filter (fun r => r.id ≠ id), ni, nt, none⟩ henv (by simp [mkEvent])
  simp only [mkEvent] at hD2
  rw [route_delete env _ _ _ id rfl hput] at hD2
  simp only [dbDelete] at hD2
  simp only [mkEvent]
  rw [hD]
  refine ⟨rfl, rfl, rfl, ?_⟩
  rw [hD2]
  simp [List.filter_filter]

/-- Witness instantiating claim C6 at a concrete Delete executed twice on the
same id. -/
theorem claim_C6_witness :
    (handler envEx (mkEvent "DELETE" itemPath none) storeEx).1.statusCode = 204 ∧
    (handler envEx (mkEvent "DELETE" itemPath none)
        ((handler envEx (mkEvent "DELETE" itemPath none) storeEx).2)).2 =
      (handler envEx (mkEvent "DELETE" itemPath none) storeEx).2 := by
  have h := claim_C6_delete_idempotent envEx (by decide) itemPath none none storeEx
    "id-7" (by decide) (by decide)
  exact ⟨h.1, h.2.2.2⟩

/-- Claim C7: every failure is converted into a response at the handler
boundary — validation failures map to 400, Update on an unknown id to 404,
and a storage failure on List, Create, Update or Delete to 500 whose JSON
body carries an `error` field and the underlying message as a details
string. -/
theorem claim_C7_error_mapping (env : Env) (henv : envReady env)
    (p q : String) (o o2 : ReqBody) (s s2 : Store) (id : String) (e : DbError)
    (hpost : extractSubpath p = "/prompts")
    (hput : idPathMatch (extractSubpath q) = some id)
    (hfail : s.failure = some e) (hcode : e.code ≠ "PGRST116")
    (hn : truthy o.name = true) (hd : truthy o.description = true)
    (hpr : truthy o.prompt = true)
    (hbad : truthy o2.name = false)
    (hf2 : s2.failure = none) (hmiss : ∀ r ∈ s2.rows, r.id ≠ id) :
    (handler env (mkEvent "GET" p none) s).1 = serverError e.message ∧
    (handler env (mkEvent "POST" p (some (.object o))) s).1 = serverError e.message ∧
    (handler env (mkEvent "PUT" q (some (.object o))) s).1 = serverError e.message ∧
    (handler env (mkEvent "DELETE" q none) s).1 = serverError e.message ∧
    serverError e.message =
      { statusCode := 500, headers := jsonHeaders,
        body := some (.json (.obj
          [("error", .str "Server error"), ("details", .str e.message)])) } ∧
    (handler env (mkEvent "POST" p (some (.object o2))) s2).1.statusCode = 400 ∧
    (handler env (mkEvent "PUT" q (some (.object o2))) s2).1.statusCode = 400 ∧
    (handler env (mkEvent "PUT" q (some (.object o))) s2).1.statusCode = 404 := by
  have hvt : (!truthy o.name || !truthy o.description || !truthy o.prompt) = false := by
    simp [hn, hd, hpr]
  have hvb : (!truthy o2.name || !truthy o2.description || !truthy o2.prompt) = true := by
    simp [hbad]
  refine ⟨?_, ?_, ?_, ?_, rfl, ?_, ?_, ?_⟩
  · have hG := handler_ready env (mkEvent "GET" p none) s henv (by simp [mkEvent])
    simp only [mkEvent] at hG
    rw [route_list env _ s rfl (extractSubpath p) (Or.inr hpost)] at hG
    simp only [dbSelectOrdered, hfail] at hG
    simp only [mkEvent]
    rw [hG]
  · have hP := handler_ready env (mkEvent "POST" p (some (.object o))) s henv
      (by simp [mkEvent])
    simp only [mkEvent] at hP
    rw [hpost, route_post env _ s rfl] at hP
    simp only [parseBody, hvt, Bool.false_eq_true, if_false, dbInsert, hfail] at hP
    simp only [mkEvent]
    rw [hP]
  · have hU := handler_ready env (mkEvent "PUT" q (some (.object o))) s henv
      (by simp [mkEvent])
    simp only [mkEvent] at hU
    rw [route_put env _ s _ id rfl hput] at hU
    simp only [parseBody, hvt, Bool.false_eq_true, if_false, dbUpdate, hfail] at hU
    rw [if_neg hcode] at hU
    simp only [mkEvent]
    rw [hU]
  · have hD := handler_ready env (mkEvent "DELETE" q none) s henv (by simp [mkEvent])
    simp only [mkEvent] at hD
    rw [route_delete env _ s _ id rfl hput] at hD
    simp only [dbDelete, hfail] at hD
    simp only [mkEvent]
    rw [hD]
  · have hP := handler_ready env (mkEvent "POST" p (some (.object o2))) s2 henv
      (by simp [mkEvent])
    simp only [mkEvent] at hP
    rw [hpost, route_post env _ s2 rfl] at hP
    simp only [parseBody, hvb, if_true] at hP
    simp only [mkEvent]
    rw [hP]
    rfl
  · have hU := handler_ready env (mkEvent "PUT" q (some (.object o2))) s2 henv
      (by simp [mkEvent])
    simp only [mkEvent] at hU
    rw [route_put env _ s2 _ id rfl hput] at hU
    simp only [parseBody, hvb, if_true] at hU
    simp only [mkEvent]
    rw [hU]
    rfl
  · have hU := handler_ready env (mkEvent "PUT" q (some (.object o))) s2 henv
      (by simp [mkEvent])
    simp only [mkEvent] at hU
    rw [route_put env _ s2 _ id rfl hput] at hU
    simp only [parseBody, hvt, Bool.false_eq_true, if_false] at hU
    rw [dbUpdate_nomatch s2 id _ _ _ hf2 hmiss] at hU
    simp only [reduceIte] at hU
    simp only [mkEvent]
    rw [hU]

/-- Witness instantiating claim C7 at a concrete failing store and concrete
validation/not-found requests. -/
theorem claim_C7_witness :
    (handler envEx (mkEvent "GET" postPath none) failStore).1.statusCode = 500 ∧
    (handler envEx (mkEvent "PUT" missPath (some (.object fullBody)))
      storeEx).1.statusCode = 404 := by
  have h := claim_C7_error_mapping envEx (by decide) postPath missPath fullBody
    {} failStore storeEx "zzz"
    { code := "XX000", message := "connection refused" }
    (by decide) (by decide) (by decide) (by decide) (by decide) (by decide)
    (by decide) (by decide) (by decide) (by decide)
  refine ⟨?_, h.2.2.2.2.2.2.2⟩
  rw [h.1]
  rfl

theorem route_ok_headers (env : Env) (ev : Event) (sp : String) (s : Store)
    (resp : Response) (s' : Store)
    (h : route env ev sp s = (.ok resp, s')) : resp.headers = jsonHeaders := by
  unfold route at h
  repeat' split at h
  all_goals injection h with h1 h2
  all_goals
    first
    | (injection h1 with h3
       subst h3
       rfl)
    | injection h1

theorem handler_headers_aux (env : Env) (ev : Event) (s : Store) :
    (handler env ev s).1.headers = jsonHeaders := by
  unfold handler
  split
  · rfl
  · split
    · rfl
    · split
      · rfl
      · rcases hr : route env ev (extractSubpath ev.path) s with ⟨res | res, s'⟩
        · rfl
        · exact route_ok_headers env ev (extractSubpath ev.path) s res s' hr

/-- Claim C8: every response carries the constant JSON/CORS header object;
an OPTIONS request is answered 204 with no body and no storage interaction;
an unmatched method/path combination is answered 404 with a JSON body naming
the error, the method and the subpath. -/
theorem claim_C8_headers_routing (env : Env) (ev ev2 : Event) (s : Store)
    (henv : envReady env) (hop : ev2.httpMethod = "OPTIONS")
    (m p : String) (b : Option ParsedBody) (hm : m ≠ "OPTIONS")
    (hnomatch : ¬ matchedRoute m (extractSubpath p)) :
    (handler env ev s).1.headers = jsonHeaders ∧
    ((handler env ev2 s).1.statusCode = 204 ∧
     (handler env ev2 s).1.headers = jsonHeaders ∧
     (handler env ev2 s).1.body = none ∧
     (handler env ev2 s).2 = s) ∧
    ((handler env (mkEvent m p b) s).1.statusCode = 404 ∧
     (handler env (mkEvent m p b) s).1.body =
       some (.json (.obj [("error", .str "Not found"), ("method", .str m),
         ("path", .str (extractSubpath p))])) ∧
     (handler env (mkEvent m p b) s).2 = s) := by
  have hopts :
      handler env ev2 s = ({ statusCode := 204, headers := jsonHeaders, body := none }, s) := by
    unfold handler
    rw [if_pos hop]
  have hcatch := handler_ready env (mkEvent m p b) s henv (by simpa [mkEvent] using hm)
  rw [route_unmatched env (mkEvent m p b) s (extractSubpath (mkEvent m p b).path)
    (by simpa [mkEvent] using hnomatch)] at hcatch
  refine ⟨handler_headers_aux env ev s, ?_, ?_⟩
  · rw [hopts]
    exact ⟨rfl, rfl, rfl, rfl⟩
  · simp only [mkEvent] at hcatch ⊢
    rw [hcatch]
    exact ⟨rfl, rfl, rfl⟩

/-- Witness instantiating claim C8 at a concrete request, a concrete
preflight and a concrete unmatched method. -/
theorem claim_C8_witness :
    (handler envEx (mkEvent "GET" postPath none) storeEx).1.headers = jsonHeaders ∧
    (handler envEx (mkEvent "OPTIONS" postPath none) storeEx).1.statusCode = 204 ∧
    (handler envEx (mkEvent "PATCH" postPath none) storeEx).1.statusCode = 404 := by
  have h := claim_C8_headers_routing envEx (mkEvent "GET" postPath none)
    (mkEvent "OPTIONS" postPath none) storeEx (by decide) (by decide)
    "PATCH" postPath none (by decide) (by decide)
  exact ⟨h.1, h.2.1.1, h.2.2.1⟩

/-- Claim C9: a POST or PUT whose non-empty body fails to parse as JSON is
answered 500 with the generic server-error body (the parse failure is caught
only by the outer catch-all), while an entirely empty body is treated as the
empty object and rejected 400 by validation. -/
theorem claim_C9_body_parse (env : Env) (henv : envReady env) (p q : String)
    (s : Store) (id : String) (m : String)
    (hpost : extractSubpath p = "/prompts")
    (hput : idPathMatch (extractSubpath q) = some id) :
    ((handler env (mkEvent "POST" p (some (.malformed m))) s).1 = serverError m ∧
     (handler env (mkEvent "POST" p (some (.malformed m))) s).2 = s) ∧
    (handler env (mkEvent "POST" p none) s).1.statusCode = 400 ∧
    ((handler env (mkEvent "PUT" q (some (.malformed m))) s).1 = serverError m ∧
     (handler env (mkEvent "PUT" q (some (.malformed m))) s).2 = s) ∧
    (handler env (mkEvent "PUT" q none) s).1.statusCode = 400 ∧
    serverError m =
      { statusCode := 500, headers := jsonHeaders,
        body := some (.json (.obj
          [("error", .str "Server error"), ("details", .str m)])) } := by
  have hPm := handler_ready env (mkEvent "POST" p (some (.malformed m))) s henv
    (by simp [mkEvent])
  have hPn := handler_ready env (mkEvent "POST" p none) s henv (by simp [mkEvent])
  have hUm := handler_ready env (mkEvent "PUT" q (some (.malformed m))) s henv
    (by simp [mkEvent])
  have hUn := handler_ready env (mkEvent "PUT" q none) s henv (by simp [mkEvent])
  simp only [mkEvent] at hPm hPn hUm hUn
  rw [hpost, route_post env _ s rfl] at hPm
  rw [hpost, route_post env _ s rfl] at hPn
  rw [route_put env _ s _ id rfl hput] at hUm
  rw [route_put env _ s _ id rfl hput] at hUn
  simp only [parseBody, truthy] at hPm hPn hUm hUn
  simp only [mkEvent]
  rw [hPm, hPn, hUm, hUn]
  exact ⟨⟨rfl, rfl⟩, rfl, ⟨rfl, rfl⟩, rfl, rfl⟩

/-- Witness instantiating claim C9 at a concrete malformed body and a
concrete empty body. -/
theorem claim_C9_witness :
    (handler envEx (mkEvent "POST" postPath
      (some (.malformed "Unexpected token"))) storeEx).1.statusCode = 500 ∧
    (handler envEx (mkEvent "POST" postPath none) storeEx).1.statusCode = 400 := by
  have h := claim_C9_body_parse envEx (by decide) postPath itemPath storeEx "id-7"
    "Unexpected token" (by decide) (by decide)
  refine ⟨?_, h.2.1⟩
  rw [h.1.1]
  rfl

/-- Claim C10: when either connection credential is absent, every request
except OPTIONS — the health check included — is answered 500 with the
configuration-error body before any routing and without touching storage;
when the handler is configured, the health response reports both
credential-presence flags as true and its body holds only booleans and the
runtime version, never a credential value. -/
theorem claim_C10_config (env env2 : Env) (ev : Event) (s s2 : Store)
    (hmiss : truthy env.supabaseUrl = false ∨ truthy env.supabaseKey = false)
    (hm : ev.httpMethod ≠ "OPTIONS")
    (henv2 : envReady env2) (p : String) (b : Option ParsedBody)
    (hp : extractSubpath p = "/health") :
    ((handler env ev s).1 = configError ∧ (handler env ev s).2 = s) ∧
    ((handler env2 (mkEvent "GET" p b) s2).1.statusCode = 200 ∧
     (handler env2 (mkEvent "GET" p b) s2).1.body =
       some (.json (.obj
         [("ok", .bool true),
          ("env", .obj
            [("SUPABASE_URL_SET", .bool true),
             ("SUPABASE_ANON_KEY_SET", .bool true),
             ("node", .str env2.nodeVersion)])])) ∧
     (handler env2 (mkEvent "GET" p b) s2).2 = s2) := by
  have hcond : (!truthy env.supabaseUrl || !truthy env.supabaseKey) = true := by
    rcases hmiss with h | h <;> rw [h] <;> simp
  constructor
  · unfold handler
    rw [if_neg hm, if_pos hcond]
    exact ⟨rfl, rfl⟩
  · have hG := handler_ready env2 (mkEvent "GET" p b) s2 henv2 (by simp [mkEvent])
    simp only [mkEvent] at hG
    rw [hp, route_health env2 _ s2 rfl] at hG
    rw [henv2.1, henv2.2.1] at hG
    simp only [mkEvent]
    rw [hG]
    exact ⟨rfl, rfl, rfl⟩

/-- Witness instantiating claim C10 at a concrete credential-less environment
(where even the health path gets the configuration error) and a concrete
healthy health check. -/
theorem claim_C10_witness :
    (handler envNoUrl (mkEvent "GET" healthPath none) storeEx).1.statusCode = 500 ∧
    (handler envEx (mkEvent "GET" healthPath none) storeEx).1.statusCode = 200 := by
  have h := claim_C10_config envNoUrl envEx
    (mkEvent "GET" healthPath none) storeEx storeEx
    (Or.inl (by decide)) (by decide) (by decide) healthPath none (by decide)
  refine ⟨?_, h.2.1⟩
  rw [h.1.1]
  rfl
